import Mathlib

/-!
# Verification of the trading-bot signal scoring and position lifecycle core

This file gives a shallow embedding, over `ℚ`, of the scoring and
position-lifecycle functions of the trading-bot repository, and proves the
specification claims about them.

Conventions of the embedding:
* Python floats are modelled as rationals (`ℚ`).  Square roots (the standard
  deviations feeding Bollinger bands and realized volatility) are irrational,
  so wherever a function consumes such a value it is taken as an explicit
  argument; comparisons of a standard deviation against a threshold are
  modelled by the equivalent comparison of the variance against the squared
  threshold (both sides are non-negative, so the two are equivalent).
* `datetime.now()` is modelled by an explicit `now : ℕ` argument.
* A Python dict result that may carry an `'error'` key is modelled as an
  `Option`; `none` is the error case.
* Exception paths that the source catches and converts to a neutral default
  (division by zero, out-of-range `iloc`) are modelled by explicit guards
  returning the same default.
-/

/-- The clamp `max(0, min(100, x))` ending every category scorer. -/
def clamp100 (x : ℚ) : ℚ := max 0 (min 100 x)

/-- The clamp `max(0, min(95, x))`, the final confidence clamp. -/
def clamp95 (x : ℚ) : ℚ := max 0 (min 95 x)

/-! ## Trading history (`trading_history_1754752791042_1754756035353_1754765506872.py`) -/

/-- The `TradeRecord` dataclass (lines 10-27).  The free-text `reasoning` and
`exchange` fields are kept as strings; `entry_time`/`exit_time` are modelled
as natural-number timestamps. -/
structure TradeRecord where
  trade_id : String
  symbol : String
  action : String
  entry_time : ℕ
  entry_price : ℚ
  quantity : ℚ
  exit_time : Option ℕ
  exit_price : Option ℚ
  profit_loss : Option ℚ
  profit_pct : Option ℚ
  status : String
  confidence : ℚ
  reasoning : String
  fees : ℚ
  demo_mode : Bool
deriving DecidableEq

/-- The `Position` dataclass (lines 29-39). -/
structure Position where
  symbol : String
  side : String
  quantity : ℚ
  entry_price : ℚ
  current_price : ℚ
  unrealized_pnl : ℚ
  unrealized_pnl_pct : ℚ
  entry_time : ℕ
deriving DecidableEq

/-- The `TradingHistory` state: the `trades` and `positions` lists
(lines 44-46). -/
structure TradingHistory where
  trades : List TradeRecord
  positions : List Position
deriving DecidableEq

/-- The source function `TradingHistory.add_position` (lines 109-128): first drops any existing
position with the same symbol, then appends a fresh one whose
`current_price` equals the entry price and whose unrealized P&L is zero. -/
def add_position (h : TradingHistory) (now : ℕ) (symbol side : String)
    (quantity entry_price : ℚ) : TradingHistory :=
  let kept := h.positions.filter (fun p => decide (p.symbol ≠ symbol))
  { h with positions :=
      kept ++ [{ symbol := symbol, side := side, quantity := quantity,
                 entry_price := entry_price, current_price := entry_price,
                 unrealized_pnl := 0, unrealized_pnl_pct := 0,
                 entry_time := now }] }

/-- The source function `TradingHistory.add_trade` (lines 48-81): unconditionally appends a new
OPEN `TradeRecord` (there is no check for an existing OPEN trade on the same
symbol), and, when the action is `"BUY"`, also records a LONG position via
`add_position`.  Returns the generated trade id together with the new
state. -/
def add_trade (h : TradingHistory) (now : ℕ) (symbol action : String)
    (entry_price quantity confidence : ℚ) (reasoning : String)
    (demo_mode : Bool) : String × TradingHistory :=
  let trade_id := symbol ++ "_" ++ action ++ "_" ++ toString now
  let trade : TradeRecord :=
    { trade_id := trade_id, symbol := symbol, action := action,
      entry_time := now, entry_price := entry_price, quantity := quantity,
      exit_time := none, exit_price := none, profit_loss := none,
      profit_pct := none, status := "OPEN", confidence := confidence,
      reasoning := reasoning, fees := 0, demo_mode := demo_mode }
  let h1 : TradingHistory := { h with trades := h.trades ++ [trade] }
  let h2 := if action = "BUY"
    then add_position h1 now symbol "LONG" quantity entry_price
    else h1
  (trade_id, h2)

/-- The source function `TradingHistory.remove_position` (lines 130-137). -/
def remove_position (h : TradingHistory) (symbol : String) : TradingHistory :=
  { h with positions := h.positions.filter (fun p => decide (p.symbol ≠ symbol)) }

/-- The mutation `close_trade` performs on the matched trade
(lines 88-99).  The source computes `profit_pct` by a division by
`entry_price * quantity`; positions are opened with positive price and
quantity, and on the degenerate zero denominator Python raises where `ℚ`
division returns `0`. -/
def closeTradeRecord (t : TradeRecord) (now : ℕ) (exit_price fees : ℚ) :
    TradeRecord :=
  let pl := if t.action = "BUY"
    then (exit_price - t.entry_price) * t.quantity - fees
    else (t.entry_price - exit_price) * t.quantity - fees
  { t with exit_time := some now, exit_price := some exit_price,
           fees := fees, status := "CLOSED", profit_loss := some pl,
           profit_pct := some (pl / (t.entry_price * t.quantity) * 100) }

/-- The loop of `close_trade` (lines 86-107): find the first trade whose id
matches and whose status is OPEN, replace it by its closed form, and report
the symbol of the trade that was closed. -/
def closeScan (now : ℕ) (trade_id : String) (exit_price fees : ℚ) :
    List TradeRecord → Option (String × List TradeRecord)
  | [] => none
  | t :: ts =>
    if t.trade_id = trade_id ∧ t.status = "OPEN" then
      some (t.symbol, closeTradeRecord t now exit_price fees :: ts)
    else
      match closeScan now trade_id exit_price fees ts with
      | none => none
      | some (sym, ts') => some (sym, t :: ts')

/-- The source function `TradingHistory.close_trade` (lines 83-107): on a match, the trade is
marked CLOSED and the position on its symbol is removed; otherwise the state
is unchanged and `false` is returned. -/
def close_trade (h : TradingHistory) (now : ℕ) (trade_id : String)
    (exit_price : ℚ) (fees : ℚ) : Bool × TradingHistory :=
  match closeScan now trade_id exit_price fees h.trades with
  | none => (false, h)
  | some (sym, ts') => (true, remove_position { h with trades := ts' } sym)

/-- The per-position update of `update_position_prices` (lines 142-152): if
the symbol is in the price map, set `current_price` and recompute the
unrealized P&L; otherwise leave the position alone. -/
def updatePositionPrice (updates : String → Option ℚ) (p : Position) :
    Position :=
  match updates p.symbol with
  | none => p
  | some px =>
    let pnl := if p.side = "LONG"
      then (px - p.entry_price) * p.quantity
      else (p.entry_price - px) * p.quantity
    { p with current_price := px, unrealized_pnl := pnl,
             unrealized_pnl_pct := pnl / (p.entry_price * p.quantity) * 100 }

/-- The source function `TradingHistory.update_position_prices` (lines 139-152).  The Python
`Dict[str, float]` of price updates is modelled as a partial map
`String → Option ℚ`. -/
def update_position_prices (h : TradingHistory)
    (updates : String → Option ℚ) : TradingHistory :=
  { h with positions := h.positions.map (updatePositionPrice updates) }

/-- The source function `TradingHistory.clear_demo_trades` (lines 284-292). -/
def clear_demo_trades (h : TradingHistory) : TradingHistory :=
  { trades := h.trades.filter (fun t => !t.demo_mode), positions := [] }

/-- The states of a `TradingHistory` reachable from the initial empty state
through its public mutating operations. -/
inductive Reachable : TradingHistory → Prop
  | init : Reachable ⟨[], []⟩
  | step_add_trade {h} : Reachable h →
      ∀ n sym act price qty conf rsn demo,
        Reachable (add_trade h n sym act price qty conf rsn demo).2
  | step_close_trade {h} : Reachable h →
      ∀ n tid xp fees, Reachable (close_trade h n tid xp fees).2
  | step_add_position {h} : Reachable h →
      ∀ n sym side qty price, Reachable (add_position h n sym side qty price)
  | step_remove_position {h} : Reachable h →
      ∀ sym, Reachable (remove_position h sym)
  | step_update_prices {h} : Reachable h →
      ∀ updates, Reachable (update_position_prices h updates)
  | step_clear_demo {h} : Reachable h → Reachable (clear_demo_trades h)

/-! ## Adaptive weights (`intelligent_trader_1754765285973.py`,
`update_ai_weights`, lines 626-662) -/

/-- The four score categories, in the iteration order of the
`scores` dict literal (lines 638-643). -/
inductive Factor
  | technical
  | fundamental
  | sentiment
  | momentum
deriving DecidableEq

/-- The `indicator_weights` map (lines 46-51). -/
structure Weights where
  technical : ℚ
  fundamental : ℚ
  sentiment : ℚ
  momentum : ℚ
deriving DecidableEq

def Weights.get (w : Weights) : Factor → ℚ
  | .technical => w.technical
  | .fundamental => w.fundamental
  | .sentiment => w.sentiment
  | .momentum => w.momentum

def Weights.set (w : Weights) : Factor → ℚ → Weights
  | .technical, x => { w with technical := x }
  | .fundamental, x => { w with fundamental := x }
  | .sentiment, x => { w with sentiment := x }
  | .momentum, x => { w with momentum := x }

def Weights.sum (w : Weights) : ℚ :=
  w.technical + w.fundamental + w.sentiment + w.momentum

/-- The selection `max(scores.items(), key=lambda x: x[1])[0]` (line 646): Python's `max`
scans in insertion order and keeps the first maximum, so a later entry wins
only when strictly greater. -/
def strongestFactor (t f s m : ℚ) : Factor :=
  let p2 := if f > t then (Factor.fundamental, f) else (Factor.technical, t)
  let p3 := if s > p2.2 then (Factor.sentiment, s) else p2
  if m > p3.2 then Factor.momentum else p3.1

/-- The source function `IntelligentTrader.update_ai_weights` (lines 626-662): adjust the
strongest category's weight by `+0.1` if the trade was profitable else
`-0.05` (`success_weight_adjustment` / `failure_weight_adjustment`, lines
42-43), clamp that weight to `[0.1, 0.6]` (line 650), then divide every
weight by the total (lines 654-656). -/
def update_ai_weights (w : Weights) (t f s m : ℚ) (performance : ℚ) :
    Weights :=
  let adjustment : ℚ := if performance > 0 then 1/10 else -(1/20)
  let strongest := strongestFactor t f s m
  let new_weight := max (1/10) (min (6/10) (w.get strongest + adjustment))
  let w1 := w.set strongest new_weight
  let total := w1.sum
  { technical := w1.technical / total, fundamental := w1.fundamental / total,
    sentiment := w1.sentiment / total, momentum := w1.momentum / total }

/-! ## Signal interpretation -/

/-- An action/confidence decision.  The human-readable `reasoning` text the
source builds alongside (from the strongest and weakest factors) carries no
logic and is not modelled. -/
structure Decision where
  action : String
  confidence : ℚ
deriving DecidableEq

/-- The source function `IntelligentTrader._interpret_analysis_score` of
`intelligent_trader_1754765285973.py` (lines 429-477): BUY at
`total_score ≥ 70` with confidence `min(total_score, 95)`, SELL at
`total_score ≤ 30` with confidence `min(100 - total_score, 95)`, otherwise
HOLD with confidence `100 - |total_score - 50| * 2` (lines 434-442). -/
def interpret_analysis_score_v1 (total _t _f _s _m : ℚ) : Decision :=
  if total ≥ 70 then ⟨"BUY", min total 95⟩
  else if total ≤ 30 then ⟨"SELL", min (100 - total) 95⟩
  else ⟨"HOLD", 100 - |total - 50| * 2⟩

/-- Population variance of four values, i.e. `np.std(scores) ** 2` for
`ddof = 0`.  A comparison `np.std(scores) > c` (for `c ≥ 0`) is modelled as
`popVariance > c^2`, which is equivalent since both sides of the original
comparison are non-negative. -/
def popVariance (a b c d : ℚ) : ℚ :=
  let mu := (a + b + c + d) / 4
  ((a - mu) ^ 2 + (b - mu) ^ 2 + (c - mu) ^ 2 + (d - mu) ^ 2) / 4

/-- The source function `IntelligentTrader._interpret_analysis_score` of
`intelligent_trader_1754752791042_1754756105218_1754765664441.py`
(lines 403-454): BUY/SELL thresholds 65/35, dispersion scaling by the
standard deviation of the four scores (`> 20` scales by 0.8, `< 10` by 1.1),
then the clamp `max(0, min(95, confidence))` (line 427). -/
def interpret_analysis_score_v2 (total t f s m : ℚ) : Decision :=
  let action := if total ≥ 65 then "BUY"
    else if total ≤ 35 then "SELL" else "HOLD"
  let conf0 : ℚ := if total ≥ 65 then total
    else if total ≤ 35 then 100 - total else 50
  let variance := popVariance t f s m
  let conf1 := if variance > 400 then conf0 * (8/10)
    else if variance < 100 then conf0 * (11/10) else conf0
  ⟨action, clamp95 conf1⟩

/-- A generated signal's interpreted fields
(`SignalGenerator._interpret_signal` result). -/
structure SignalOut where
  action : String
  confidence : ℚ
  strength : String
deriving DecidableEq

/-- The source function `SignalGenerator._interpret_signal` of
`signal_generator_1754752791041_1754756035353_1754765506871.py`
(lines 419-497): BUY/SELL thresholds 65/35 (lines 424-432), dispersion
scaling with standard-deviation thresholds 25/15 (lines 438-441), strength
tiers computed from the pre-clamp confidence against the 80/55 thresholds
(lines 444-449), and the final clamp `max(0, min(95, confidence))`
(line 477). -/
def interpret_signal (final t p v s : ℚ) : SignalOut :=
  let action := if final ≥ 65 then "BUY"
    else if final ≤ 35 then "SELL" else "HOLD"
  let conf0 : ℚ := if final ≥ 65 then final
    else if final ≤ 35 then 100 - final else 50
  let variance := popVariance t p v s
  let conf1 := if variance > 625 then conf0 * (8/10)
    else if variance < 225 then conf0 * (11/10) else conf0
  let strength := if conf1 ≥ 80 then "Strong"
    else if conf1 ≥ 55 then "Moderate" else "Weak"
  ⟨action, clamp95 conf1, strength⟩

/-! ## Sentiment labels -/

inductive SentLabel
  | bullish
  | slightlyBullish
  | bearish
  | slightlyBearish
  | neutral
deriving DecidableEq

/-- The label mapping of
`news_parser_1754752845843_1754756035354_1754765621213.py`
(`get_market_sentiment` lines 203-208, and identically
`analyze_symbol_sentiment` lines 293-298): a three-way split at `±0.1`. -/
def sentimentLabel (s : ℚ) : SentLabel :=
  if s > 1/10 then .bullish
  else if s < -(1/10) then .bearish
  else .neutral

/-- The market-wide label mapping of
`news_parser_1754755741844_1754765621213.py` (`get_market_sentiment`,
lines 441-450): the five-way split at `0.2 / 0.05 / -0.2 / -0.05`.  Its
per-symbol sibling `analyze_symbol_sentiment` uses narrower Bullish/Bearish
thresholds and is embedded separately as `sentimentLabelSymbol`. -/
def sentimentLabelWeighted (s : ℚ) : SentLabel :=
  if s > 1/5 then .bullish
  else if s > 1/20 then .slightlyBullish
  else if s < -(1/5) then .bearish
  else if s < -(1/20) then .slightlyBearish
  else .neutral

/-- The per-symbol label mapping of
`news_parser_1754755741844_1754765621213.py` (`analyze_symbol_sentiment`,
lines 586-595): the same five-way shape but with Bullish/Bearish thresholds
`±0.15` instead of `±0.2`. -/
def sentimentLabelSymbol (s : ℚ) : SentLabel :=
  if s > 3/20 then .bullish
  else if s > 1/20 then .slightlyBullish
  else if s < -(3/20) then .bearish
  else if s < -(1/20) then .slightlyBearish
  else .neutral

/-- Modelled from the spec: the label mapping stated in §4.3 of the
specification, "Map aggregate score to a label: >0.2 Bullish, >0.05 Slightly
Bullish, <−0.2 Bearish, <−0.05 Slightly Bearish, else Neutral", written as a
case split on disjoint intervals for comparison with the source mappings. -/
def specSentimentLabel (s : ℚ) : SentLabel :=
  if s > 1/5 then .bullish
  else if 1/20 < s ∧ s ≤ 1/5 then .slightlyBullish
  else if s < -(1/5) then .bearish
  else if -(1/5) ≤ s ∧ s < -(1/20) then .slightlyBearish
  else .neutral

/-! ## OHLCV series and comprehensive technical analysis -/

/-- One OHLCV bar.  `open` is a Lean keyword, hence the field name
`open_`. -/
structure Bar where
  open_ : ℚ
  high : ℚ
  low : ℚ
  close : ℚ
  volume : ℚ
deriving DecidableEq

def closes (df : List Bar) : List ℚ := df.map (·.close)

def volumes (df : List Bar) : List ℚ := df.map (·.volume)

/-- The pandas operation `series.tail(n)`: the last `n` elements (the whole series when
it is shorter). -/
def tailN (n : ℕ) (xs : List ℚ) : List ℚ := xs.drop (xs.length - n)

/-- The pandas operation `series.mean()`.  On an empty series pandas yields `NaN`, and every
comparison against `NaN` is false — exactly as every comparison `0 > c·0`
used on these means is false — so `0` is a faithful stand-in here. -/
def meanQ (xs : List ℚ) : ℚ := if xs.length = 0 then 0 else xs.sum / xs.length

/-- The pandas access `series.iloc[-k]`, as an `Option`: `none` models the `IndexError` raised
when the series is shorter than `k`. -/
def ilocNeg (xs : List ℚ) (k : ℕ) : Option ℚ :=
  if k ≤ xs.length then xs.get? (xs.length - k) else none

/-- The latest-values record built by
`TechnicalAnalysis.get_comprehensive_analysis`
(`technical_analysis_1754752920275_1754756035353_1754765506871.py`,
lines 177-192). -/
structure Analysis where
  price : ℚ
  sma_10 : ℚ
  sma_20 : ℚ
  ema_12 : ℚ
  rsi : ℚ
  macd : ℚ
  macd_signal : ℚ
  bb_upper : ℚ
  bb_lower : ℚ
  stoch_k : ℚ
  stoch_d : ℚ
deriving DecidableEq

/-- The source function `TechnicalAnalysis.get_comprehensive_analysis` (lines 155-198): with
fewer than 50 bars it returns the empty dict `{}` (lines 158-160), modelled
as `none`; otherwise it returns the latest indicator values.  The numeric
indicator pipeline involves rolling standard deviations (Bollinger bands),
which are irrational, so the computed record is abstracted as the argument
`ind`; every claim below either concerns the short-data branch or holds for
all values of the record. -/
def get_comprehensive_analysis (df : List Bar) (ind : Analysis) :
    Option Analysis :=
  if df.length < 50 then none else some ind

/-! ## Category scorers (`intelligent_trader_1754765285973.py`,
lines 257-427) -/

/-- The source function `IntelligentTrader._calculate_technical_score` (lines 257-302): neutral
base 50; RSI `±15` outside 30/70, MACD-vs-signal `±10`, price vs SMA20
`±10`, price vs Bollinger bands `∓5`; clamped by `max(0, min(100, score))`
(line 298).  The falsy empty analysis returns the neutral 50 (lines
262-263). -/
def calculate_technical_score (df : List Bar) (ind : Analysis) : ℚ :=
  match get_comprehensive_analysis df ind with
  | none => 50
  | some a =>
    let s1 : ℚ := if a.rsi < 30 then 50 + 15
      else if a.rsi > 70 then 50 - 15 else 50
    let s2 := if a.macd > a.macd_signal then s1 + 10 else s1 - 10
    let s3 := if a.price > a.sma_20 then s2 + 10 else s2 - 10
    let s4 := if a.price > a.bb_upper then s3 - 5
      else if a.price < a.bb_lower then s3 + 5 else s3
    clamp100 s4

/-- The source function `IntelligentTrader._calculate_fundamental_score` (lines 304-343).
`volatility` is the sample standard deviation of the last 24 close-to-close
percentage changes (line 319-320), an irrational quantity passed here as an
argument. -/
def calculate_fundamental_score (symbol : String) (df : List Bar)
    (volatility : ℚ) : ℚ :=
  let recent_volume := meanQ (tailN 24 (volumes df))
  let historical_volume := meanQ (tailN 168 (volumes df))
  let s1 : ℚ := if recent_volume > historical_volume * (3/2) then 50 + 20
    else if recent_volume < historical_volume * (1/2) then 50 - 10 else 50
  let s2 := if 1/50 ≤ volatility ∧ volatility ≤ 1/20 then s1 + 10
    else if volatility > 1/10 then s1 - 15 else s1
  let s3 := if symbol.endsWith "USDT" then
      let base := symbol.replace "USDT" ""
      if base = "BTC" ∨ base = "ETH" ∨ base = "BNB" then s2 + 10
      else if base = "ADA" ∨ base = "XRP" ∨ base = "SOL" ∨ base = "DOT"
        then s2 + 5
      else s2 - 5
    else s2
  clamp100 s3

/-- A news item as consumed by `_calculate_sentiment_score`; free text is
modelled as character lists so the keyword search is executable. -/
structure NewsItem where
  title : List Char
  description : List Char

def lowerChars (cs : List Char) : List Char := cs.map Char.toLower

/-- Whether `needle` occurs at the head of `hay`. -/
def leadsWith : List Char → List Char → Bool
  | [], _ => true
  | _ :: _, [] => false
  | a :: as, b :: bs => a = b && leadsWith as bs

/-- Python's `needle in hay` substring test. -/
def occursIn (needle : List Char) : List Char → Bool
  | [] => needle.isEmpty
  | b :: bs => leadsWith needle (b :: bs) || occursIn needle bs

def positiveKeywords : List (List Char) :=
  ["gain", "rise", "up", "bull", "positive", "growth",
   "adoption"].map String.toList

def negativeKeywords : List (List Char) :=
  ["fall", "down", "bear", "negative", "crash", "decline",
   "drop"].map String.toList

/-- The per-item classification loop of `_calculate_sentiment_score`
(lines 358-370): an item counts as positive if any positive keyword occurs
in its lowercased title-plus-description, else as negative if any negative
keyword occurs. -/
def countNews (items : List NewsItem) : ℕ × ℕ :=
  items.foldl
    (fun pn item =>
      let text := lowerChars item.title ++ [' '] ++ lowerChars item.description
      if positiveKeywords.any (fun k => occursIn k text) then (pn.1 + 1, pn.2)
      else if negativeKeywords.any (fun k => occursIn k text) then
        (pn.1, pn.2 + 1)
      else pn)
    (0, 0)

/-- The source function `IntelligentTrader._calculate_sentiment_score` (lines 345-386): with
symbol-specific news, bump the neutral 50 by `min(count*10, 30)` toward the
majority side (lines 372-375); with no symbol news, add
`sentiment_score * 20` from the market-wide sentiment (lines 376-380);
clamp (line 382). -/
def calculate_sentiment_score (symbolNews : List NewsItem)
    (marketSentimentScore : ℚ) : ℚ :=
  match symbolNews with
  | [] => clamp100 (50 + marketSentimentScore * 20)
  | _ :: _ =>
    let counts := countNews symbolNews
    let positive_news := counts.1
    let negative_news := counts.2
    let s : ℚ :=
      if positive_news > negative_news then
        50 + min ((positive_news : ℚ) * 10) 30
      else if negative_news > positive_news then
        50 - min ((negative_news : ℚ) * 10) 30
      else 50
    clamp100 s

/-- The source function `IntelligentTrader._calculate_momentum_score` (lines 388-427).  The
`iloc[-24]` / `iloc[-168]` accesses raise `IndexError` on a shorter series
and the divisions raise `ZeroDivisionError` on a zero price or zero mean
volume; all of those are caught by the function's `except`, which returns
the neutral 50 (lines 425-427), modelled by the explicit guards. -/
def calculate_momentum_score (df : List Bar) : ℚ :=
  match ilocNeg (closes df) 1, ilocNeg (closes df) 24,
      ilocNeg (closes df) 168 with
  | some cLast, some c24, some c168 =>
    if c24 = 0 ∨ c168 = 0 then 50
    else
      let recent_change := (cLast / c24 - 1) * 100
      let weekly_change := (cLast / c168 - 1) * 100
      let s1 : ℚ := if recent_change > 5 then 50 + 20
        else if recent_change > 2 then 50 + 10
        else if recent_change < -5 then 50 - 20
        else if recent_change < -2 then 50 - 10
        else 50
      let s2 := if (recent_change > 0 ∧ weekly_change > 0) ∨
          (recent_change < 0 ∧ weekly_change < 0) then s1 + 10 else s1 - 5
      let recent_volume := meanQ (tailN 24 (volumes df))
      let historical_volume := meanQ (volumes df)
      if historical_volume = 0 then 50
      else
        let volume_ratio := recent_volume / historical_volume
        let s3 := if volume_ratio > 3/2 then s2 + 15
          else if volume_ratio < 1/2 then s2 - 10 else s2
        clamp100 s3
  | _, _, _ => 50

/-- The advanced-indicator block consumed by
`SignalGenerator._analyze_technical_indicators` (lines 164-196).  The
`analysis.indicators` module is not present in the repository sources, so
its `get_all_indicators` result is abstracted: `none` models
`analysis_complete` being falsy, `some` carries the latest values read. -/
structure AdvIndicators where
  williams_r : ℚ
  cci : ℚ
  mfi : ℚ
  current_price : ℚ
  parabolic_sar : ℚ
deriving DecidableEq

/-- The source function `SignalGenerator._analyze_technical_indicators`
(`signal_generator_1754752791041_1754756035353_1754765506871.py`,
lines 100-202): neutral base 50; RSI, MACD-with-sign, chained
moving-average comparison, Bollinger, stochastic and optional advanced
confirmations; clamp `max(0, min(100, score))` (line 198). -/
def analyze_technical_indicators (df : List Bar) (ind : Analysis)
    (adv : Option AdvIndicators) : ℚ :=
  match get_comprehensive_analysis df ind with
  | none => 50
  | some a =>
    let s1 : ℚ := if a.rsi < 30 then 50 + 15
      else if a.rsi > 70 then 50 - 15
      else if 40 ≤ a.rsi ∧ a.rsi ≤ 60 then 50 + 5
      else 50
    let s2 := if a.macd > a.macd_signal ∧ a.macd > 0 then s1 + 12
      else if a.macd < a.macd_signal ∧ a.macd < 0 then s1 - 12 else s1
    let s3 := if a.price > a.sma_10 ∧ a.sma_10 > a.sma_20 then s2 + 15
      else if a.price < a.sma_10 ∧ a.sma_10 < a.sma_20 then s2 - 15
      else if a.price > a.sma_20 then s2 + 8
      else if a.price < a.sma_20 then s2 - 8
      else s2
    let s4 := if a.price < a.bb_lower then s3 + 10
      else if a.price > a.bb_upper then s3 - 10 else s3
    let s5 := if a.stoch_k < 20 ∧ a.stoch_d < 20 then s4 + 8
      else if a.stoch_k > 80 ∧ a.stoch_d > 80 then s4 - 8
      else if a.stoch_k > a.stoch_d ∧ a.stoch_k < 80 then s4 + 5
      else if a.stoch_k < a.stoch_d ∧ a.stoch_k > 20 then s4 - 5
      else s4
    let s6 := match adv with
      | none => s5
      | some ai =>
        let u1 := if ai.williams_r < -80 then s5 + 6
          else if ai.williams_r > -20 then s5 - 6 else s5
        let u2 := if ai.cci < -100 then u1 + 6
          else if ai.cci > 100 then u1 - 6 else u1
        let u3 := if ai.mfi < 20 then u2 + 6
          else if ai.mfi > 80 then u2 - 6 else u2
        if ai.current_price > ai.parabolic_sar then u3 + 5
        else if ai.current_price < ai.parabolic_sar then u3 - 5 else u3
    clamp100 s6

/-! ## Position exit rules
(`intelligent_trader_1754752791042_1754756105218_1754765664441.py`) -/

/-- The result of a symbol analysis, as consumed by the exit-reversal check
and by the trade executors: the `action`/`confidence` fields of the dict
returned by `analyze_symbol`. -/
structure AnalysisOut where
  action : String
  confidence : ℚ
deriving DecidableEq

/-- The exit reasons of `_should_close_position`, in source order. -/
inductive CloseReason
  | maxHoldTime
  | takeProfit
  | stopLoss
  | reversalSell
  | reversalBuy
deriving DecidableEq

/-- The source function `IntelligentTrader._should_close_position` (lines 588-612), evaluated
sequentially with the first matching rule winning: position age above
`max_hold_time_hours` (in seconds, line 592-594), then take-profit at
unrealized P&L% `> 15` (lines 597-598), then stop-loss at `< -8`
(lines 600-601), then a fresh opposite-direction signal with confidence
`> 75` (lines 604-610).  `analysis` is the re-analysis result (`none` when
`analyze_symbol` returned `None`); `ageSeconds` is
`(now - position.entry_time).total_seconds()`. -/
def should_close_position (pos : Position) (ageSeconds : ℚ)
    (maxHoldHours : ℚ) (analysis : Option AnalysisOut) :
    Option CloseReason :=
  if ageSeconds > maxHoldHours * 3600 then some .maxHoldTime
  else if pos.unrealized_pnl_pct > 15 then some .takeProfit
  else if pos.unrealized_pnl_pct < -8 then some .stopLoss
  else match analysis with
    | none => none
    | some a =>
      if pos.side = "LONG" ∧ a.action = "SELL" ∧ a.confidence > 75 then
        some .reversalSell
      else if pos.side = "SHORT" ∧ a.action = "BUY" ∧ a.confidence > 75 then
        some .reversalBuy
      else none

/-- The realized-profit percentage computed by `_close_position`
(lines 636-639): `(exit − entry)/entry · 100` for a BUY trade, the negated
quotient for a SELL. -/
def close_profit_pct (action : String) (entry_price current_price : ℚ) : ℚ :=
  if action = "BUY" then
    (current_price - entry_price) / entry_price * 100
  else
    (entry_price - current_price) / entry_price * 100

/-! ## Trade execution -/

/-- The distinct failure branches of the two `execute_trade` variants. -/
inductive ExecFailure
  | analysisFailed
  | lowConfidence
  | maxPositions
  | priceError
  | badPrice
  | balanceError
  | insufficientBalance
  | orderError
deriving DecidableEq

/-- The structured result of an `execute_trade` call: a failure reason, or
the success record. -/
inductive ExecResult
  | failure (why : ExecFailure)
  | success (orderId : ℕ) (quantity price leverage : ℚ)
deriving DecidableEq

/-- The external-collaborator responses consumed by
`execute_trade` of
`intelligent_trader_1754752791042_1754756105218_1754765664441.py`:
the price-ticker reply (`none` models an `'error'` reply), the account
balances (asset/free pairs; `none` models an error), and the order
acknowledgement as a function of the submitted quantity (`none` models an
`'error'` reply). -/
structure ExecEnv where
  tickerPrice : Option ℚ
  accountBalances : Option (List (String × ℚ))
  orderOutcome : ℚ → Option ℕ
  now : ℕ

/-- The USDT-balance extraction loop (lines 479-484): the `free` amount of
the first `USDT` entry, defaulting to `0`. -/
def usdtBalance (balances : List (String × ℚ)) : ℚ :=
  match balances.find? (fun b => b.1 = "USDT") with
  | some b => b.2
  | none => 0

/-- The source function `IntelligentTrader.execute_trade` of
`intelligent_trader_1754752791042_1754756105218_1754765664441.py`
(lines 456-551): reject when the open-position count has reached
`max_positions = 3` (lines 460-462), on a price error (465-467), on a
non-positive price (469-471), on an account-info error (474-476), on a USDT
balance below 10 (486-487); size the position as 33.33% of the balance
scaled by the confidence-tier leverage (489-500); reject when the order
reply carries an error (510-511); only then record the trade through
`add_trade` (513-522). -/
def execute_trade_v2 (env : ExecEnv) (h : TradingHistory)
    (symbol action : String) (confidence : ℚ) (reasoning : String)
    (demo_mode : Bool) : ExecResult × TradingHistory :=
  if 3 ≤ h.positions.length then (.failure .maxPositions, h)
  else match env.tickerPrice with
  | none => (.failure .priceError, h)
  | some current_price =>
    if current_price ≤ 0 then (.failure .badPrice, h)
    else match env.accountBalances with
    | none => (.failure .balanceError, h)
    | some balances =>
      let usdt_balance := usdtBalance balances
      if usdt_balance < 10 then (.failure .insufficientBalance, h)
      else
        let position_value := usdt_balance * ((3333/100) / 100)
        let leverage : ℚ := if confidence ≥ 85 then 3
          else if confidence ≥ 80 then 2 else 1
        let quantity := position_value * leverage / current_price
        match env.orderOutcome quantity with
        | none => (.failure .orderError, h)
        | some orderId =>
          let h2 := (add_trade h env.now symbol action current_price quantity
            confidence reasoning demo_mode).2
          (.success orderId quantity current_price leverage, h2)

/-! The other executor, `execute_trade` of
`intelligent_trader_1754765285973.py` (lines 479-553), runs against the
sqlite-backed `TradingHistory` of `trading_history_1754765285974.py`; its
in-memory shadow (the `positions` dict plus the appended `trades` rows) is
modelled below. -/

/-- The `Position` dataclass of `trading_history_1754765285974.py`
(lines 13-36). -/
structure PositionV1 where
  symbol : String
  position_type : String
  entry_price : ℚ
  current_price : ℚ
  quantity : ℚ
  entry_time : ℕ
  unrealized_pnl : ℚ
  unrealized_pnl_pct : ℚ
deriving DecidableEq

/-- The initialization `Position.__post_init__` / `update_pnl` (lines 25-36): the unrealized
P&L is always recomputed; the percentage only when `entry_price > 0`.  (The
division is by `entry_price * quantity`; a zero `quantity` with a positive
price raises in Python, a path unreachable from the executor, which always
passes a positive quantity.) -/
def mkPositionV1 (symbol position_type : String)
    (entry_price current_price quantity : ℚ) (entry_time : ℕ) : PositionV1 :=
  let pnl := if position_type = "LONG"
    then (current_price - entry_price) * quantity
    else (entry_price - current_price) * quantity
  { symbol := symbol, position_type := position_type,
    entry_price := entry_price, current_price := current_price,
    quantity := quantity, entry_time := entry_time, unrealized_pnl := pnl,
    unrealized_pnl_pct :=
      if entry_price > 0 then pnl / (entry_price * quantity) * 100 else 0 }

/-- A row of the `trades` table as inserted by `add_trade`
(lines 168-178). -/
structure TradeRow where
  symbol : String
  trade_type : String
  quantity : ℚ
  price : ℚ
  timestamp : ℕ
  pnl : ℚ
  fee : ℚ
deriving DecidableEq

/-- The in-memory state of `trading_history_1754765285974.py`: the
`positions` dict (an association list keyed by symbol) and the rows of the
`trades` table. -/
structure HistoryV1 where
  tradeRows : List TradeRow
  positions : List (String × PositionV1)
deriving DecidableEq

def posLookup (ps : List (String × PositionV1)) (symbol : String) :
    Option PositionV1 :=
  (ps.find? (fun e => e.1 = symbol)).map (·.2)

def posStore (ps : List (String × PositionV1)) (symbol : String)
    (p : PositionV1) : List (String × PositionV1) :=
  if ps.any (fun e => e.1 = symbol) then
    ps.map (fun e => if e.1 = symbol then (symbol, p) else e)
  else ps ++ [(symbol, p)]

def posDelete (ps : List (String × PositionV1)) (symbol : String) :
    List (String × PositionV1) :=
  ps.filter (fun e => decide (e.1 ≠ symbol))

/-- The source function `TradingHistory.add_trade` of `trading_history_1754765285974.py`
(lines 121-197): a SELL against an existing position realizes
`(price − entry) · min(quantity, position.quantity)` and closes or shrinks
the position (lines 129-140); a BUY averages into an existing position or
opens a fresh LONG one (lines 142-163); a 0.1% fee is charged (line 166)
and the row is appended to the `trades` table (lines 168-178). -/
def add_trade_v1 (h : HistoryV1) (now : ℕ) (symbol trade_type : String)
    (quantity price : ℚ) : HistoryV1 :=
  let step : ℚ × List (String × PositionV1) :=
    match posLookup h.positions symbol with
    | some pos =>
      if trade_type = "SELL" then
        let pnl := (price - pos.entry_price) * min quantity pos.quantity
        if pos.quantity ≤ quantity then (pnl, posDelete h.positions symbol)
        else (pnl, posStore h.positions symbol
          { pos with quantity := pos.quantity - quantity })
      else if trade_type = "BUY" then
        let total_value := pos.entry_price * pos.quantity + price * quantity
        let total_quantity := pos.quantity + quantity
        (0, posStore h.positions symbol
          { pos with entry_price := total_value / total_quantity,
                     quantity := total_quantity, current_price := price })
      else (0, h.positions)
    | none =>
      if trade_type = "BUY" then
        (0, posStore h.positions symbol
          (mkPositionV1 symbol "LONG" price price quantity now))
      else (0, h.positions)
  let fee := price * quantity * (1/1000)
  { tradeRows := h.tradeRows ++
      [{ symbol := symbol, trade_type := trade_type, quantity := quantity,
         price := price, timestamp := now, pnl := step.1, fee := fee }],
    positions := step.2 }

/-- The collaborator responses consumed by `execute_trade` of
`intelligent_trader_1754765285973.py`: the `analyze_symbol` fallback used
when no analysis is passed in, the 24h-ticker last price, and the order
acknowledgement. -/
structure ExecEnvV1 where
  analysisFallback : Option AnalysisOut
  tickerPrice : Option ℚ
  orderOutcome : ℚ → Option ℕ
  now : ℕ

/-- The source function `IntelligentTrader.execute_trade` of
`intelligent_trader_1754765285973.py` (lines 479-553): fall back to a fresh
analysis when none is given, failing if that analysis fails (483-486);
reject a confidence below `min_confidence_threshold = 70` (489-493); reject
a BUY when `max_positions = 3` is reached (496-498); reject on a ticker
error (501-503); reject on an order error (508-518); only then record the
trade (521-527). -/
def execute_trade_v1 (env : ExecEnvV1) (h : HistoryV1)
    (symbol action : String) (quantity : ℚ)
    (analysisArg : Option AnalysisOut) : ExecResult × HistoryV1 :=
  let analysis? := match analysisArg with
    | some a => some a
    | none => env.analysisFallback
  match analysis? with
  | none => (.failure .analysisFailed, h)
  | some analysis =>
    if analysis.confidence < 70 then (.failure .lowConfidence, h)
    else if 3 ≤ h.positions.length ∧ action = "BUY" then
      (.failure .maxPositions, h)
    else match env.tickerPrice with
    | none => (.failure .priceError, h)
    | some current_price =>
      match env.orderOutcome quantity with
      | none => (.failure .orderError, h)
      | some orderId =>
        (.success orderId quantity current_price 1,
         add_trade_v1 h env.now symbol action quantity current_price)

/-! ## Batch scanning and signal sorting -/

/-- A generated signal, reduced to the fields the batch pipeline reads. -/
structure Signal where
  symbol : String
  action : String
  confidence : ℚ
deriving DecidableEq

/-- Non-increasing confidence order on signals. -/
def confGE (a b : Signal) : Prop := b.confidence ≤ a.confidence

instance : DecidableRel confGE := fun a b =>
  inferInstanceAs (Decidable (b.confidence ≤ a.confidence))

instance : IsTotal Signal confGE := ⟨fun a b => le_total b.confidence a.confidence⟩

instance : IsTrans Signal confGE :=
  ⟨fun _ _ _ hab hbc => le_trans hbc hab⟩

/-- The source function `SignalGenerator.batch_generate_signals`
(`signal_generator_1754752791041_1754756035353_1754765506871.py`,
lines 499-515): for each symbol generate a signal (a `None` result or a
raised exception skips the symbol), keep those with confidence at least
`min_confidence_threshold = 65.0` (line 23), and sort by confidence in
descending order (line 513; Python's stable sort is modelled by the stable
`List.insertionSort`).  The per-symbol generator, which chains the whole
scoring pipeline, is passed as the function `gen`. -/
def batch_generate_signals (gen : String → List Bar → Option Signal)
    (symbolsData : List (String × List Bar)) : List Signal :=
  let signals := symbolsData.foldl
    (fun acc sd =>
      match gen sd.1 sd.2 with
      | some sig => if sig.confidence ≥ 65 then acc ++ [sig] else acc
      | none => acc)
    []
  List.insertionSort confGE signals

/-- An opportunity row built by `scan_for_opportunities`
(`intelligent_trader_1754765285973.py`, lines 160-168), reduced to the
fields the filtering and sorting read. -/
structure Opportunity where
  symbol : String
  action : String
  confidence : ℚ
deriving DecidableEq

/-- Non-increasing confidence order on opportunities. -/
def oppGE (a b : Opportunity) : Prop := b.confidence ≤ a.confidence

instance : DecidableRel oppGE := fun a b =>
  inferInstanceAs (Decidable (b.confidence ≤ a.confidence))

instance : IsTotal Opportunity oppGE :=
  ⟨fun a b => le_total b.confidence a.confidence⟩

instance : IsTrans Opportunity oppGE :=
  ⟨fun _ _ _ hab hbc => le_trans hbc hab⟩

/-- The source function `IntelligentTrader.scan_for_opportunities`
(`intelligent_trader_1754765285973.py`, lines 137-181): analyze each
candidate symbol (a `None` analysis or a raised exception skips it), keep
those with confidence at least `min_confidence_threshold = 70.0` (line 38),
sort by confidence descending (line 175) and return the top 10 (line 177).
The candidate-symbol collection from the ticker feeds and the per-symbol
`analyze_symbol` pipeline are passed as the inputs `symbols` and
`analyze`. -/
def scan_for_opportunities (analyze : String → Option AnalysisOut)
    (symbols : List String) : List Opportunity :=
  let opportunities := symbols.foldl
    (fun acc sym =>
      match analyze sym with
      | some a =>
        if a.confidence ≥ 70 then
          acc ++ [{ symbol := sym, action := a.action,
                    confidence := a.confidence }]
        else acc
      | none => acc)
    []
  (List.insertionSort oppGE opportunities).take 10

/-! ## Helper lemmas -/

theorem clamp100_nonneg (x : ℚ) : 0 ≤ clamp100 x := le_max_left 0 _

theorem clamp100_le (x : ℚ) : clamp100 x ≤ 100 :=
  max_le (by norm_num) (min_le_left 100 x)

theorem clamp95_nonneg (x : ℚ) : 0 ≤ clamp95 x := le_max_left 0 _

theorem clamp95_le (x : ℚ) : clamp95 x ≤ 95 :=
  max_le (by norm_num) (min_le_left 95 x)

/-! ## C6: insufficient data yields the neutral default -/

/-- C6.  For every OHLCV series with fewer than 50 bars,
`get_comprehensive_analysis` returns the empty result (`none`, the model of
`{}`) — no exception is raised, the function being total — and
`_calculate_technical_score`, consuming it, returns exactly the neutral
score 50. -/
theorem short_series_neutral_default (df : List Bar) (ind : Analysis)
    (h : df.length < 50) :
    get_comprehensive_analysis df ind = none ∧
      calculate_technical_score df ind = 50 := by
  have hg : get_comprehensive_analysis df ind = none := by
    simp [get_comprehensive_analysis, h]
  refine ⟨hg, ?_⟩
  simp [calculate_technical_score, hg]

/-- Witness for C6: a concrete 10-bar series. -/
theorem short_series_neutral_default_witness :
    (List.replicate 10 (⟨1, 1, 1, 1, 1⟩ : Bar)).length < 50 ∧
      get_comprehensive_analysis (List.replicate 10 ⟨1, 1, 1, 1, 1⟩)
        ⟨0, 0, 0, 0, 0, 0, 0, 0, 0, 0, 0⟩ = none ∧
      calculate_technical_score (List.replicate 10 ⟨1, 1, 1, 1, 1⟩)
        ⟨0, 0, 0, 0, 0, 0, 0, 0, 0, 0, 0⟩ = 50 := by
  refine ⟨by simp, ?_, ?_⟩
  · exact (short_series_neutral_default _ _ (by simp)).1
  · exact (short_series_neutral_default _ _ (by simp)).2

/-! ## C7: every category score lies in [0, 100] -/

/-- C7.  Each category scorer — the trader's technical, fundamental,
sentiment and momentum scorers and the signal generator's technical
scorer — returns a value in `[0, 100]`: every exit path is either the
neutral default 50 or the final clamp `max(0, min(100, score))`. -/
theorem category_scores_bounded :
    (∀ df ind, 0 ≤ calculate_technical_score df ind ∧
      calculate_technical_score df ind ≤ 100) ∧
    (∀ symbol df volatility,
      0 ≤ calculate_fundamental_score symbol df volatility ∧
      calculate_fundamental_score symbol df volatility ≤ 100) ∧
    (∀ news mkt, 0 ≤ calculate_sentiment_score news mkt ∧
      calculate_sentiment_score news mkt ≤ 100) ∧
    (∀ df, 0 ≤ calculate_momentum_score df ∧
      calculate_momentum_score df ≤ 100) ∧
    (∀ df ind adv, 0 ≤ analyze_technical_indicators df ind adv ∧
      analyze_technical_indicators df ind adv ≤ 100) := by
  refine ⟨fun df ind => ?_, fun symbol df volatility => ?_,
    fun news mkt => ?_, fun df => ?_, fun df ind adv => ?_⟩
  · unfold calculate_technical_score
    rcases get_comprehensive_analysis df ind with _ | a
    · norm_num
    · exact ⟨clamp100_nonneg _, clamp100_le _⟩
  · unfold calculate_fundamental_score
    exact ⟨clamp100_nonneg _, clamp100_le _⟩
  · unfold calculate_sentiment_score
    rcases news with _ | ⟨item, rest⟩
    · exact ⟨clamp100_nonneg _, clamp100_le _⟩
    · exact ⟨clamp100_nonneg _, clamp100_le _⟩
  · unfold calculate_momentum_score
    rcases ilocNeg (closes df) 1 with _ | c1
    · exact ⟨by norm_num, by norm_num⟩
    rcases ilocNeg (closes df) 24 with _ | c24
    · exact ⟨by norm_num, by norm_num⟩
    rcases ilocNeg (closes df) 168 with _ | c168
    · exact ⟨by norm_num, by norm_num⟩
    dsimp only
    by_cases hz : c24 = 0 ∨ c168 = 0
    · rw [if_pos hz]
      exact ⟨by norm_num, by norm_num⟩
    · rw [if_neg hz]
      by_cases hh : meanQ (volumes df) = 0
      · rw [if_pos hh]
        exact ⟨by norm_num, by norm_num⟩
      · rw [if_neg hh]
        exact ⟨clamp100_nonneg _, clamp100_le _⟩
  · unfold analyze_technical_indicators
    rcases get_comprehensive_analysis df ind with _ | a
    · norm_num
    · exact ⟨clamp100_nonneg _, clamp100_le _⟩

/-! ## C2: the confidence ceiling -/

/-- Counterexample for C2: in `_interpret_analysis_score` of
`intelligent_trader_1754765285973.py`, the HOLD branch does not clamp; at a
perfectly neutral total score of 50 it returns confidence 100, exceeding
the claimed hard ceiling of 95. -/
theorem hold_confidence_exceeds_95 :
    (interpret_analysis_score_v1 50 50 50 50 50).action = "HOLD" ∧
      (interpret_analysis_score_v1 50 50 50 50 50).confidence = 100 ∧
      ¬ (interpret_analysis_score_v1 50 50 50 50 50).confidence ≤ 95 := by
  norm_num [interpret_analysis_score_v1]

/-- C2 (amended).  The confidence returned by `_interpret_signal` and by
the 65/35 variant of `_interpret_analysis_score` always lies in `[0, 95]`
(both end in the clamp `max(0, min(95, ·))`).  In the 70/30 variant of
`intelligent_trader_1754765285973.py` the bound holds on the BUY and SELL
branches (where `min(·, 95)` is applied), but the HOLD branch returns
`100 − 2·|total − 50|`, which lies in `(60, 100]` and is not capped at
95. -/
theorem interpret_confidence_range :
    (∀ total t f s m, total ≥ 70 ∨ total ≤ 30 →
      0 ≤ (interpret_analysis_score_v1 total t f s m).confidence ∧
        (interpret_analysis_score_v1 total t f s m).confidence ≤ 95) ∧
    (∀ total t f s m, 30 < total → total < 70 →
      (interpret_analysis_score_v1 total t f s m).confidence =
          100 - |total - 50| * 2 ∧
        60 < (interpret_analysis_score_v1 total t f s m).confidence ∧
        (interpret_analysis_score_v1 total t f s m).confidence ≤ 100) ∧
    (∀ total t f s m,
      0 ≤ (interpret_analysis_score_v2 total t f s m).confidence ∧
        (interpret_analysis_score_v2 total t f s m).confidence ≤ 95) ∧
    (∀ final t p v s,
      0 ≤ (interpret_signal final t p v s).confidence ∧
        (interpret_signal final t p v s).confidence ≤ 95) := by
  refine ⟨fun total t f s m h => ?_, fun total t f s m h1 h2 => ?_,
    fun total t f s m => ?_, fun final t p v s => ?_⟩
  · unfold interpret_analysis_score_v1
    rcases h with h | h
    · rw [if_pos h]
      constructor
      · exact le_min (by linarith) (by norm_num)
      · exact min_le_right _ _
    · rw [if_neg (by linarith), if_pos h]
      constructor
      · exact le_min (by linarith) (by norm_num)
      · exact min_le_right _ _
  · unfold interpret_analysis_score_v1
    rw [if_neg (by linarith), if_neg (by linarith)]
    rcases abs_cases (total - 50) with ⟨habs, _⟩ | ⟨habs, _⟩ <;>
      refine ⟨rfl, ?_, ?_⟩ <;> rw [habs] <;> simp <;> linarith
  · exact ⟨clamp95_nonneg _, clamp95_le _⟩
  · exact ⟨clamp95_nonneg _, clamp95_le _⟩

/-- Witness for C2 (amended), at total score 80 (BUY branch of the 70/30
variant) and concrete inputs for the clamped variants. -/
theorem interpret_confidence_range_witness :
    ((80 : ℚ) ≥ 70 ∨ (80 : ℚ) ≤ 30) ∧
      (0 ≤ (interpret_analysis_score_v1 80 80 80 80 80).confidence ∧
        (interpret_analysis_score_v1 80 80 80 80 80).confidence ≤ 95) ∧
      ((30 : ℚ) < 40 ∧ (40 : ℚ) < 70 ∧
        (interpret_analysis_score_v1 40 40 40 40 40).confidence =
          100 - |(40 : ℚ) - 50| * 2) ∧
      (0 ≤ (interpret_analysis_score_v2 50 50 50 50 50).confidence ∧
        (interpret_analysis_score_v2 50 50 50 50 50).confidence ≤ 95) := by
  refine ⟨Or.inl (by norm_num),
    interpret_confidence_range.1 80 80 80 80 80 (Or.inl (by norm_num)),
    ⟨by norm_num, by norm_num,
      (interpret_confidence_range.2.1 40 40 40 40 40 (by norm_num)
        (by norm_num)).1⟩,
    interpret_confidence_range.2.2.1 50 50 50 50 50⟩

/-! ## C8: sentiment label thresholds -/

/-- Counterexample for C8: the cited news parser
(`news_parser_1754752845843_1754756035354_1754765621213.py`) labels an
aggregate score of `0.15` as Bullish, where the claimed mapping
(thresholds 0.2/0.05) would label it Slightly Bullish; the cited mapping
has no Slightly tiers at all. -/
theorem sentiment_label_mismatch_at_015 :
    sentimentLabel (3/20) = SentLabel.bullish ∧
      specSentimentLabel (3/20) = SentLabel.slightlyBullish ∧
      SentLabel.bullish ≠ SentLabel.slightlyBullish := by
  refine ⟨?_, ?_, by decide⟩
  · norm_num [sentimentLabel]
  · norm_num [specSentimentLabel]

/-- C8 (amended).  The cited news parser labels the aggregate score with a
three-way split at `±0.1` (Bullish above `0.1`, Bearish below `−0.1`, else
Neutral, with no Slightly tiers).  The five-way mapping of the claim —
`>0.2` Bullish, `>0.05` Slightly Bullish, `<−0.2` Bearish, `<−0.05`
Slightly Bearish, else Neutral — is implemented by the weighted news parser
variant's market-wide `get_market_sentiment`
(`news_parser_1754755741844_1754765621213.py`, lines 441-450); that
variant's per-symbol `analyze_symbol_sentiment` (lines 586-595) keeps the
same five-way shape and `±0.05` Slightly thresholds but uses `±0.15`
Bullish/Bearish thresholds instead of `±0.2`, so at an aggregate score of
`0.17` it says Bullish where the claimed mapping says Slightly Bullish. -/
theorem sentiment_label_mappings :
    (∀ s : ℚ, sentimentLabelWeighted s = specSentimentLabel s) ∧
    (∀ s : ℚ, s > 3/20 → sentimentLabelSymbol s = SentLabel.bullish) ∧
    (∀ s : ℚ, 1/20 < s → s ≤ 3/20 →
      sentimentLabelSymbol s = SentLabel.slightlyBullish) ∧
    (∀ s : ℚ, s < -(3/20) → sentimentLabelSymbol s = SentLabel.bearish) ∧
    (∀ s : ℚ, -(3/20) ≤ s → s < -(1/20) →
      sentimentLabelSymbol s = SentLabel.slightlyBearish) ∧
    (∀ s : ℚ, -(1/20) ≤ s → s ≤ 1/20 →
      sentimentLabelSymbol s = SentLabel.neutral) ∧
    (sentimentLabelSymbol (17/100) = SentLabel.bullish ∧
      specSentimentLabel (17/100) = SentLabel.slightlyBullish) ∧
    (∀ s : ℚ, s > 1/10 → sentimentLabel s = SentLabel.bullish) ∧
    (∀ s : ℚ, s < -(1/10) → sentimentLabel s = SentLabel.bearish) ∧
    (∀ s : ℚ, -(1/10) ≤ s → s ≤ 1/10 →
      sentimentLabel s = SentLabel.neutral) := by
  refine ⟨fun s => ?_, fun s h => ?_, fun s h1 h2 => ?_, fun s h => ?_,
    fun s h1 h2 => ?_, fun s h1 h2 => ?_,
    ⟨by norm_num [sentimentLabelSymbol],
      by norm_num [specSentimentLabel]⟩,
    fun s h => ?_, fun s h => ?_, fun s h1 h2 => ?_⟩
  · unfold sentimentLabelWeighted specSentimentLabel
    by_cases h1 : s > 1/5
    · rw [if_pos h1, if_pos h1]
    · rw [if_neg h1, if_neg h1]
      by_cases h2 : s > 1/20
      · rw [if_pos h2, if_pos ⟨h2, not_lt.mp h1⟩]
      · rw [if_neg h2,
          if_neg (show ¬(1/20 < s ∧ s ≤ 1/5) from fun hc => h2 hc.1)]
        by_cases h3 : s < -(1/5)
        · rw [if_pos h3, if_pos h3]
        · rw [if_neg h3, if_neg h3]
          by_cases h4 : s < -(1/20)
          · rw [if_pos h4, if_pos ⟨not_lt.mp h3, h4⟩]
          · rw [if_neg h4,
              if_neg (show ¬(-(1/5) ≤ s ∧ s < -(1/20)) from
                fun hc => h4 hc.2)]
  · unfold sentimentLabelSymbol
    rw [if_pos h]
  · unfold sentimentLabelSymbol
    rw [if_neg (not_lt.mpr h2), if_pos h1]
  · unfold sentimentLabelSymbol
    rw [if_neg (by linarith), if_neg (by linarith), if_pos h]
  · unfold sentimentLabelSymbol
    rw [if_neg (by linarith), if_neg (by linarith),
      if_neg (not_lt.mpr h1), if_pos h2]
  · unfold sentimentLabelSymbol
    rw [if_neg (by linarith), if_neg (not_lt.mpr h2),
      if_neg (by linarith), if_neg (not_lt.mpr h1)]
  · unfold sentimentLabel
    rw [if_pos h]
  · unfold sentimentLabel
    rw [if_neg (by linarith), if_pos h]
  · unfold sentimentLabel
    rw [if_neg (not_lt.mpr h2), if_neg (not_lt.mpr (by linarith))]

/-- Witness for C8 (amended), at the concrete aggregate score `0.5`. -/
theorem sentiment_label_mappings_witness :
    sentimentLabelWeighted (1/2) = specSentimentLabel (1/2) ∧
      ((1 : ℚ)/2 > 3/20 ∧ sentimentLabelSymbol (1/2) = SentLabel.bullish) ∧
      ((1 : ℚ)/2 > 1/10 ∧ sentimentLabel (1/2) = SentLabel.bullish) := by
  refine ⟨sentiment_label_mappings.1 (1/2),
    ⟨by norm_num, sentiment_label_mappings.2.1 (1/2) (by norm_num)⟩,
    ⟨by norm_num,
      sentiment_label_mappings.2.2.2.2.2.2.2.1 (1/2) (by norm_num)⟩⟩

/-! ## C1: the weight-sum invariant -/

theorem sum_div_sum_eq_one {a b c d : ℚ} (h : 0 < a + b + c + d) :
    a / (a + b + c + d) + b / (a + b + c + d) + c / (a + b + c + d) +
      d / (a + b + c + d) = 1 := by
  rw [div_add_div_same, div_add_div_same, div_add_div_same]
  exact div_self (ne_of_gt h)

theorem one_tenth_le_clamped (x : ℚ) : 1/10 ≤ max (1/10) (min (6/10) x) :=
  le_max_left _ _

/-- C1.  For every closed-trade performance (of either sign) and every
starting weights map with non-negative entries (the data model's
`IndicatorWeights` are non-negative), after `update_ai_weights` — adjust
the strongest category's weight by `+0.1` if profitable else `−0.05`, clamp
it to `[0.1, 0.6]`, renormalize — the four weights sum to exactly 1, and in
particular to 1 within `1e-6`. -/
theorem update_ai_weights_sum_one (w : Weights) (t f s m performance : ℚ)
    (h : 0 ≤ w.technical ∧ 0 ≤ w.fundamental ∧ 0 ≤ w.sentiment ∧
      0 ≤ w.momentum) :
    (update_ai_weights w t f s m performance).sum = 1 ∧
      |(update_ai_weights w t f s m performance).sum - 1| ≤ 1/1000000 := by
  obtain ⟨h1, h2, h3, h4⟩ := h
  have key : (update_ai_weights w t f s m performance).sum = 1 := by
    unfold update_ai_weights
    dsimp only
    cases hsf : strongestFactor t f s m <;>
      simp only [Weights.get, Weights.set, Weights.sum] <;>
      refine sum_div_sum_eq_one ?_ <;>
      linarith [one_tenth_le_clamped
          (w.technical + if performance > 0 then (1:ℚ)/10 else -(1/20)),
        one_tenth_le_clamped
          (w.fundamental + if performance > 0 then (1:ℚ)/10 else -(1/20)),
        one_tenth_le_clamped
          (w.sentiment + if performance > 0 then (1:ℚ)/10 else -(1/20)),
        one_tenth_le_clamped
          (w.momentum + if performance > 0 then (1:ℚ)/10 else -(1/20))]
  exact ⟨key, by rw [key]; norm_num⟩

/-- Witness for C1: the default weights
`{technical: 0.35, fundamental: 0.25, sentiment: 0.20, momentum: 0.20}`
after a profitable trade whose strongest recorded factor is technical. -/
theorem update_ai_weights_sum_one_witness :
    (0 ≤ (35:ℚ)/100 ∧ 0 ≤ (25:ℚ)/100 ∧ 0 ≤ (20:ℚ)/100 ∧ 0 ≤ (20:ℚ)/100) ∧
      (update_ai_weights ⟨35/100, 25/100, 20/100, 20/100⟩
        80 70 60 55 5).sum = 1 :=
  ⟨⟨by norm_num, by norm_num, by norm_num, by norm_num⟩,
    (update_ai_weights_sum_one ⟨35/100, 25/100, 20/100, 20/100⟩ 80 70 60 55 5
      ⟨by norm_num, by norm_num, by norm_num, by norm_num⟩).1⟩

/-! ## C9: the frame property of `update_position_prices` -/

/-- C9.  `update_position_prices` touches no trade, adds and removes no
position, and rewrites each position elementwise: a position whose symbol
is absent from the price map is returned unchanged, and one whose symbol
maps to a price keeps its `symbol`, `side`, `quantity`, `entry_price` and
`entry_time` and gets that price as its `current_price` (only the two
unrealized-P&L fields may change besides it). -/
theorem update_position_prices_frame :
    (∀ h updates, (update_position_prices h updates).trades = h.trades) ∧
    (∀ h updates, (update_position_prices h updates).positions =
      h.positions.map (updatePositionPrice updates)) ∧
    (∀ h updates, (update_position_prices h updates).positions.length =
      h.positions.length) ∧
    (∀ updates (p : Position), updates p.symbol = none →
      updatePositionPrice updates p = p) ∧
    (∀ updates (p : Position) (px : ℚ), updates p.symbol = some px →
      (updatePositionPrice updates p).symbol = p.symbol ∧
      (updatePositionPrice updates p).side = p.side ∧
      (updatePositionPrice updates p).quantity = p.quantity ∧
      (updatePositionPrice updates p).entry_price = p.entry_price ∧
      (updatePositionPrice updates p).entry_time = p.entry_time ∧
      (updatePositionPrice updates p).current_price = px) := by
  refine ⟨fun h updates => rfl, fun h updates => rfl,
    fun h updates => by simp [update_position_prices],
    fun updates p hnone => ?_, fun updates p px hsome => ?_⟩
  · unfold updatePositionPrice
    rw [hnone]
  · unfold updatePositionPrice
    rw [hsome]
    exact ⟨rfl, rfl, rfl, rfl, rfl, rfl⟩

/-- Witness for C9: a two-position book where only one symbol is priced. -/
theorem update_position_prices_frame_witness :
    (fun sym => if sym = "BTCUSDT" then some (116:ℚ) else none) "ETHUSDT" =
        none ∧
      updatePositionPrice
        (fun sym => if sym = "BTCUSDT" then some (116:ℚ) else none)
        ⟨"ETHUSDT", "LONG", 2, 10, 10, 0, 0, 7⟩ =
        ⟨"ETHUSDT", "LONG", 2, 10, 10, 0, 0, 7⟩ ∧
      (updatePositionPrice
        (fun sym => if sym = "BTCUSDT" then some (116:ℚ) else none)
        ⟨"BTCUSDT", "LONG", 1, 100, 100, 0, 0, 7⟩).current_price = 116 := by
  refine ⟨by decide, ?_, ?_⟩
  · exact update_position_prices_frame.2.2.2.1 _ _ (by decide)
  · exact (update_position_prices_frame.2.2.2.2 _
      ⟨"BTCUSDT", "LONG", 1, 100, 100, 0, 0, 7⟩ 116 (by decide)).2.2.2.2.2

/-! ## C4: exit rules in priority order -/

/-- C4.  `_should_close_position` evaluates its exit rules sequentially
with the first match winning: the time-based rule dominates everything;
take-profit fires next at unrealized P&L% above +15; stop-loss next below
−8; signal reversal last, on an opposite-direction signal with confidence
above 75.  Concretely, a LONG position opened at 100 whose price is updated
to 116 gets unrealized P&L% = 16 and is closed as take-profit with realized
`profit_pct = 16`; updated to 91 it gets −9 and is closed as stop-loss with
`profit_pct = −9`. -/
theorem should_close_priority_and_scenarios :
    (∀ pos age hours analysis, age > hours * 3600 →
      should_close_position pos age hours analysis =
        some CloseReason.maxHoldTime) ∧
    (∀ pos age hours analysis, age ≤ hours * 3600 →
      pos.unrealized_pnl_pct > 15 →
      should_close_position pos age hours analysis =
        some CloseReason.takeProfit) ∧
    (∀ pos age hours analysis, age ≤ hours * 3600 →
      pos.unrealized_pnl_pct ≤ 15 → pos.unrealized_pnl_pct < -8 →
      should_close_position pos age hours analysis =
        some CloseReason.stopLoss) ∧
    (∀ pos age hours a, age ≤ hours * 3600 →
      -8 ≤ pos.unrealized_pnl_pct → pos.unrealized_pnl_pct ≤ 15 →
      pos.side = "LONG" → a.action = "SELL" → a.confidence > 75 →
      should_close_position pos age hours (some a) =
        some CloseReason.reversalSell) ∧
    ((update_position_prices ⟨[], [⟨"BTCUSDT", "LONG", 1, 100, 100, 0, 0, 0⟩]⟩
        (fun s => if s = "BTCUSDT" then some 116 else none)).positions.map
          (fun p =>
            (p.unrealized_pnl_pct, should_close_position p 0 168 none)) =
        [(16, some CloseReason.takeProfit)] ∧
      close_profit_pct "BUY" 100 116 = 16) ∧
    ((update_position_prices ⟨[], [⟨"BTCUSDT", "LONG", 1, 100, 100, 0, 0, 0⟩]⟩
        (fun s => if s = "BTCUSDT" then some 91 else none)).positions.map
          (fun p =>
            (p.unrealized_pnl_pct, should_close_position p 0 168 none)) =
        [(-9, some CloseReason.stopLoss)] ∧
      close_profit_pct "BUY" 100 91 = -9) := by
  refine ⟨fun pos age hours analysis hage => ?_,
    fun pos age hours analysis hage htp => ?_,
    fun pos age hours analysis hage htp hsl => ?_,
    fun pos age hours a hage hsl htp hside hact hconf => ?_,
    ⟨by norm_num [update_position_prices, updatePositionPrice,
        should_close_position],
      by norm_num [close_profit_pct]⟩,
    ⟨by norm_num [update_position_prices, updatePositionPrice,
        should_close_position],
      by norm_num [close_profit_pct]⟩⟩
  · unfold should_close_position
    rw [if_pos hage]
  · unfold should_close_position
    rw [if_neg (not_lt.mpr hage), if_pos htp]
  · unfold should_close_position
    rw [if_neg (not_lt.mpr hage), if_neg (not_lt.mpr htp), if_pos hsl]
  · unfold should_close_position
    rw [if_neg (not_lt.mpr hage), if_neg (not_lt.mpr htp),
      if_neg (not_lt.mpr hsl)]
    dsimp only
    rw [if_pos ⟨hside, hact, hconf⟩]

/-- Witness for C4: a stale position (age above the 168-hour limit) is
closed for max-hold-time, and the take-profit rule at concrete inputs. -/
theorem should_close_priority_and_scenarios_witness :
    ((604801 : ℚ) > 168 * 3600 ∧
      should_close_position ⟨"BTCUSDT", "LONG", 1, 100, 100, 0, 0, 0⟩
        604801 168 none = some CloseReason.maxHoldTime) ∧
    ((0 : ℚ) ≤ 168 * 3600 ∧ (16 : ℚ) > 15 ∧
      should_close_position ⟨"BTCUSDT", "LONG", 1, 100, 116, 16, 16, 0⟩
        0 168 none = some CloseReason.takeProfit) :=
  ⟨⟨by norm_num,
    should_close_priority_and_scenarios.1 _ _ _ _ (by norm_num)⟩,
   ⟨by norm_num, by norm_num,
    should_close_priority_and_scenarios.2.1 _ _ _ _ (by norm_num)
      (by norm_num)⟩⟩

/-! ## C5: failed execution commits no state -/

/-- C5.  For both `execute_trade` variants, every failing step —
a missing/failed analysis or a confidence below the threshold (the
`intelligent_trader_1754765285973.py` variant), the position limit, a price
fetch error, a non-positive price, an account-info error, an insufficient
balance, or an order rejection — returns a structured failure result and
leaves the trading history exactly as it was: no `TradeRecord` and no
`Position` is created. -/
theorem execute_trade_failure_no_state_change :
    (∀ env h symbol action confidence reasoning demo why,
      (execute_trade_v2 env h symbol action confidence reasoning demo).1 =
          ExecResult.failure why →
        (execute_trade_v2 env h symbol action confidence reasoning demo).2 =
          h) ∧
    (∀ env h symbol action quantity analysisArg why,
      (execute_trade_v1 env h symbol action quantity analysisArg).1 =
          ExecResult.failure why →
        (execute_trade_v1 env h symbol action quantity analysisArg).2 =
          h) := by
  constructor
  · intro env h symbol action confidence reasoning demo why
    unfold execute_trade_v2
    dsimp only
    split
    · exact fun _ => rfl
    split
    · exact fun _ => rfl
    split
    · exact fun _ => rfl
    split
    · exact fun _ => rfl
    split
    · exact fun _ => rfl
    split
    · exact fun _ => rfl
    · intro hw
      simp at hw
  · intro env h symbol action quantity analysisArg why
    unfold execute_trade_v1
    dsimp only
    split
    · exact fun _ => rfl
    split
    · exact fun _ => rfl
    split
    · exact fun _ => rfl
    split
    · exact fun _ => rfl
    split
    · exact fun _ => rfl
    · intro hw
      simp at hw

/-- Witness for C5: a price-fetch error in the 65/35 variant and a
below-threshold confidence in the `1754765285973` variant, each leaving the
empty history unchanged. -/
theorem execute_trade_failure_no_state_change_witness :
    ((execute_trade_v2 ⟨none, none, fun _ => none, 0⟩ ⟨[], []⟩ "BTCUSDT"
        "BUY" 90 "r" true).1 = ExecResult.failure ExecFailure.priceError ∧
      (execute_trade_v2 ⟨none, none, fun _ => none, 0⟩ ⟨[], []⟩ "BTCUSDT"
        "BUY" 90 "r" true).2 = ⟨[], []⟩) ∧
    ((execute_trade_v1 ⟨none, none, fun _ => none, 0⟩ ⟨[], []⟩ "BTCUSDT"
        "BUY" 1 (some ⟨"BUY", 50⟩)).1 =
          ExecResult.failure ExecFailure.lowConfidence ∧
      (execute_trade_v1 ⟨none, none, fun _ => none, 0⟩ ⟨[], []⟩ "BTCUSDT"
        "BUY" 1 (some ⟨"BUY", 50⟩)).2 = ⟨[], []⟩) :=
  ⟨⟨by norm_num [execute_trade_v2],
    execute_trade_failure_no_state_change.1 _ _ _ _ _ _ _
      ExecFailure.priceError (by norm_num [execute_trade_v2])⟩,
   ⟨by norm_num [execute_trade_v1],
    execute_trade_failure_no_state_change.2 _ _ _ _ _ _
      ExecFailure.lowConfidence (by norm_num [execute_trade_v1])⟩⟩

/-! ## C3: duplicate entries and position uniqueness -/

theorem updatePositionPrice_symbol (updates : String → Option ℚ)
    (p : Position) : (updatePositionPrice updates p).symbol = p.symbol := by
  unfold updatePositionPrice
  cases updates p.symbol
  · rfl
  · rfl

theorem nodup_symbols_add_position (h : TradingHistory) (now : ℕ)
    (symbol side : String) (quantity entry_price : ℚ)
    (hnd : (h.positions.map Position.symbol).Nodup) :
    ((add_position h now symbol side quantity entry_price).positions.map
      Position.symbol).Nodup := by
  unfold add_position
  dsimp only
  rw [List.map_append, List.nodup_append]
  refine ⟨hnd.sublist (List.Sublist.map _ (List.filter_sublist _)),
    by simp, ?_⟩
  simp only [List.map_cons, List.map_nil, List.disjoint_singleton]
  intro hmem
  obtain ⟨p, hp, hps⟩ := List.mem_map.mp hmem
  have h2 := (List.mem_filter.mp hp).2
  rw [decide_eq_true_eq] at h2
  exact h2 hps

/-- Counterexample for C3: `add_trade` performs no duplicate check, so a
second BUY entry on a symbol with an already-OPEN trade is not rejected —
after two BUY entries for `"BTCUSDT"` the history holds two concurrent OPEN
trades for that symbol (while the positions list, which is deduplicated,
holds one position). -/
theorem add_trade_duplicate_open_trades :
    ((add_trade (add_trade ⟨[], []⟩ 1 "BTCUSDT" "BUY" 100 1 80 "r1" true).2
        2 "BTCUSDT" "BUY" 110 1 80 "r2" true).2.trades.countP
        (fun t => t.symbol == "BTCUSDT" && t.status == "OPEN") = 2) ∧
    ((add_trade (add_trade ⟨[], []⟩ 1 "BTCUSDT" "BUY" 100 1 80 "r1" true).2
        2 "BTCUSDT" "BUY" 110 1 80 "r2" true).2.positions.length = 1) := by
  constructor
  · decide
  · decide

/-- C3 (amended).  `add_trade` never fails or rejects — every call appends
exactly one new trade record, so two concurrent OPEN trades for the same
symbol are possible — but the claim's position half holds: in every state
reachable through the `TradingHistory` operations, the positions list holds
at most one `Position` per symbol (`add_position` removes any existing
position for the symbol before appending). -/
theorem add_trade_appends_and_positions_unique :
    (∀ h now symbol action entry_price quantity confidence reasoning demo,
      (add_trade h now symbol action entry_price quantity confidence
        reasoning demo).2.trades.length = h.trades.length + 1) ∧
    (∀ h : TradingHistory, Reachable h →
      (h.positions.map Position.symbol).Nodup) := by
  constructor
  · intro h now symbol action entry_price quantity confidence reasoning demo
    unfold add_trade
    dsimp only
    split
    · simp [add_position]
    · simp
  · intro h hr
    induction hr with
    | init => simp
    | step_add_trade hr n sym act price qty conf rsn demo ih =>
      unfold add_trade
      dsimp only
      split
      · exact nodup_symbols_add_position _ _ _ _ _ _ ih
      · exact ih
    | step_close_trade hr n tid xp fees ih =>
      unfold close_trade
      rcases hscan : closeScan n tid xp fees _ with _ | ⟨sym, ts'⟩
      · exact ih
      · dsimp only [remove_position]
        exact ih.sublist (List.Sublist.map _ (List.filter_sublist _))
    | step_add_position hr n sym side qty price ih =>
      exact nodup_symbols_add_position _ _ _ _ _ _ ih
    | step_remove_position hr sym ih =>
      unfold remove_position
      dsimp only
      exact ih.sublist (List.Sublist.map _ (List.filter_sublist _))
    | step_update_prices hr updates ih =>
      unfold update_position_prices
      dsimp only
      have heq : Position.symbol ∘ updatePositionPrice updates =
          Position.symbol :=
        funext (fun p => updatePositionPrice_symbol updates p)
      rw [List.map_map, heq]
      exact ih
    | step_clear_demo hr ih => simp [clear_demo_trades]

/-- Witness for C3 (amended): the state reached by one BUY entry is
reachable and its position symbols are duplicate-free. -/
theorem add_trade_appends_and_positions_unique_witness :
    (add_trade ⟨[], []⟩ 1 "BTCUSDT" "BUY" 100 1 80 "r1" true).2.trades.length
        = ([] : List TradeRecord).length + 1 ∧
      (((add_trade ⟨[], []⟩ 1 "BTCUSDT" "BUY" 100 1 80 "r1"
        true).2.positions.map Position.symbol)).Nodup :=
  ⟨add_trade_appends_and_positions_unique.1 ⟨[], []⟩ 1 "BTCUSDT" "BUY"
      100 1 80 "r1" true,
   add_trade_appends_and_positions_unique.2 _
      (Reachable.step_add_trade Reachable.init 1 "BTCUSDT" "BUY" 100 1 80
        "r1" true)⟩

/-! ## C10: batch results are threshold-filtered and sorted -/

theorem mem_batch_fold (gen : String → List Bar → Option Signal) :
    ∀ (data : List (String × List Bar)) (acc : List Signal) (s : Signal),
      s ∈ data.foldl
        (fun acc sd =>
          match gen sd.1 sd.2 with
          | some sig => if sig.confidence ≥ 65 then acc ++ [sig] else acc
          | none => acc)
        acc →
      s ∈ acc ∨ 65 ≤ s.confidence := by
  intro data
  induction data with
  | nil => exact fun acc s hs => Or.inl hs
  | cons hd tl ih =>
    intro acc s hs
    rw [List.foldl_cons] at hs
    rcases ih _ s hs with hmem | hconf
    · cases hg : gen hd.1 hd.2 with
      | none => rw [hg] at hmem; exact Or.inl hmem
      | some sig =>
        rw [hg] at hmem
        dsimp only at hmem
        by_cases hc : sig.confidence ≥ 65
        · rw [if_pos hc] at hmem
          rcases List.mem_append.mp hmem with hin | hone
          · exact Or.inl hin
          · right
            rw [List.mem_singleton.mp hone]
            exact hc
        · rw [if_neg hc] at hmem
          exact Or.inl hmem
    · exact Or.inr hconf

theorem mem_scan_fold (analyze : String → Option AnalysisOut) :
    ∀ (symbols : List String) (acc : List Opportunity) (o : Opportunity),
      o ∈ symbols.foldl
        (fun acc sym =>
          match analyze sym with
          | some a =>
            if a.confidence ≥ 70 then
              acc ++ [{ symbol := sym, action := a.action,
                        confidence := a.confidence }]
            else acc
          | none => acc)
        acc →
      o ∈ acc ∨ 70 ≤ o.confidence := by
  intro symbols
  induction symbols with
  | nil => exact fun acc o ho => Or.inl ho
  | cons hd tl ih =>
    intro acc o ho
    rw [List.foldl_cons] at ho
    rcases ih _ o ho with hmem | hconf
    · cases hg : analyze hd with
      | none => rw [hg] at hmem; exact Or.inl hmem
      | some a =>
        rw [hg] at hmem
        dsimp only at hmem
        by_cases hc : a.confidence ≥ 70
        · rw [if_pos hc] at hmem
          rcases List.mem_append.mp hmem with hin | hone
          · exact Or.inl hin
          · right
            rw [List.mem_singleton.mp hone]
            exact hc
        · rw [if_neg hc] at hmem
          exact Or.inl hmem
    · exact Or.inr hconf

/-- C10.  Every signal returned by `batch_generate_signals` has confidence
at least the generator's `min_confidence_threshold` of 65, and the returned
list is sorted by non-increasing confidence; likewise every opportunity
returned by `scan_for_opportunities` has confidence at least the trader's
threshold of 70, and the (top-10) list is sorted by non-increasing
confidence. -/
theorem batch_results_filtered_and_sorted :
    (∀ gen symbolsData s, s ∈ batch_generate_signals gen symbolsData →
      65 ≤ s.confidence) ∧
    (∀ gen symbolsData,
      List.Sorted confGE (batch_generate_signals gen symbolsData)) ∧
    (∀ analyze symbols o, o ∈ scan_for_opportunities analyze symbols →
      70 ≤ o.confidence) ∧
    (∀ analyze symbols,
      List.Sorted oppGE (scan_for_opportunities analyze symbols)) := by
  refine ⟨fun gen symbolsData s hs => ?_, fun gen symbolsData => ?_,
    fun analyze symbols o ho => ?_, fun analyze symbols => ?_⟩
  · unfold batch_generate_signals at hs
    rw [List.mem_insertionSort] at hs
    rcases mem_batch_fold gen symbolsData [] s hs with hmem | hconf
    · exact absurd hmem (List.not_mem_nil s)
    · exact hconf
  · unfold batch_generate_signals
    exact List.sorted_insertionSort confGE _
  · unfold scan_for_opportunities at ho
    dsimp only at ho
    have hmem := List.mem_of_mem_take ho
    rw [List.mem_insertionSort] at hmem
    rcases mem_scan_fold analyze symbols [] o hmem with hin | hconf
    · exact absurd hin (List.not_mem_nil o)
    · exact hconf
  · unfold scan_for_opportunities
    exact List.Pairwise.sublist (List.take_sublist 10 _)
      (List.sorted_insertionSort oppGE _)

/-- Witness for C10: a one-symbol batch whose generated signal has
confidence 80. -/
theorem batch_results_filtered_and_sorted_witness :
    (⟨"BTCUSDT", "BUY", 80⟩ : Signal) ∈
        batch_generate_signals (fun sym _ => some ⟨sym, "BUY", 80⟩)
          [("BTCUSDT", [])] ∧
      (65 : ℚ) ≤ (⟨"BTCUSDT", "BUY", 80⟩ : Signal).confidence :=
  ⟨by norm_num [batch_generate_signals, List.insertionSort,
      List.orderedInsert],
   batch_results_filtered_and_sorted.1 (fun sym _ => some ⟨sym, "BUY", 80⟩)
      [("BTCUSDT", [])] ⟨"BTCUSDT", "BUY", 80⟩
      (by norm_num [batch_generate_signals, List.insertionSort,
        List.orderedInsert])⟩
